import Mathlib

/-!
Shallow embedding of `rig-core/src/embeddings/embeddable.rs`.

The Rust module defines:
  * `OneOrMany<T>`: a container with a `first : T` field and a `rest : Vec<T>`
    field, so it structurally holds at least one element.
  * `From<T> for OneOrMany<T>` (here `OneOrMany.fromItem`): single-item
    constructor.
  * `From<Vec<T>> for OneOrMany<T>` (here `OneOrMany.fromVec`): list
    constructor; on an empty vector the Rust code hits
    `panic!("Cannot create OneOrMany with an empty vector.")`.  The panic is
    modelled as `Option.none`; a successful construction is `Option.some`.
  * `From<Vec<OneOrMany<T>>> for OneOrMany<T>` (here `OneOrMany.fromMany`):
    merge, implemented in the source as `flat_map(all)` followed by
    `OneOrMany::from(items)`, hence it inherits the panic on an empty result.
  * the `Embeddable` trait with `embeddable(&self) -> Result<OneOrMany<String>, Error>`,
    modelled as functions into `Except`.  Every scalar impl is literally
    `Ok(OneOrMany::from(self.to_string()))`, captured by `scalarEmbeddable`
    applied to the type's textual-representation function.
  * `impl Embeddable for serde_json::Value` (here `jsonEmbeddable` over the
    `JsonValue` model) and `impl<T: Embeddable> Embeddable for Vec<T>`
    (here `vecEmbeddable`), whose success path calls the merge constructor and
    can therefore reach the panic branch; its result type is
    `Except E (Option (OneOrMany String))` with `.ok none` marking the panic.
-/

set_option autoImplicit false

namespace Rig

/-- Model of `OneOrMany<T>`: field `first` holds the first item, `rest` the
remaining items, mirroring the Rust struct. -/
structure OneOrMany (T : Type) where
  first : T
  rest : List T
  deriving Repr, DecidableEq

namespace OneOrMany

/-- Model of `OneOrMany::all`: `vec![first]` extended by `rest`,
i.e. `first :: rest`. -/
def all {T : Type} (o : OneOrMany T) : List T :=
  o.first :: o.rest

/-- Model of `impl<T> From<T> for OneOrMany<T>`: single item, empty rest. -/
def fromItem {T : Type} (item : T) : OneOrMany T :=
  { first := item, rest := [] }

/-- Model of `impl<T> From<Vec<T>> for OneOrMany<T>`: the iterator's first
element becomes `first`, the collected remainder becomes `rest`; the
`None => panic!` branch on an empty vector is modelled as `Option.none`. -/
def fromVec {T : Type} : List T → Option (OneOrMany T)
  | [] => none
  | item :: rest => some { first := item, rest := rest }

/-- Model of `impl<T: Clone> From<Vec<OneOrMany<T>>> for OneOrMany<T>` (merge):
`value.into_iter().flat_map(|o| o.all()).collect()` then `OneOrMany::from`,
so the panic of `fromVec` is reachable when the flattened list is empty. -/
def fromMany {T : Type} (value : List (OneOrMany T)) : Option (OneOrMany T) :=
  fromVec (List.flatten (value.map all))

end OneOrMany

/-- Model of `EmbeddableError`: its single variant `SerdeError` carries the
underlying `serde_json::Error`, modelled by its message string. -/
inductive EmbeddableError where
  | SerdeError (msg : String) : EmbeddableError
  deriving Repr, DecidableEq

/-- Model of `self.iter().map(|item| item.embeddable()).collect::<Result<Vec<_>, _>>()`:
left-to-right traversal that stops at the first `Err` and returns it verbatim,
or collects all `Ok` payloads in order. -/
def mapCollect {A E B : Type} (e : A → Except E B) : List A → Except E (List B)
  | [] => Except.ok []
  | a :: rest =>
    match e a with
    | Except.error err => Except.error err
    | Except.ok b =>
      match mapCollect e rest with
      | Except.error err => Except.error err
      | Except.ok bs => Except.ok (b :: bs)

/-- Model of `impl<T: Embeddable> Embeddable for Vec<T>`: collect each
element's `embeddable` result fail-fast, then merge the per-element
collections with `OneOrMany.fromMany`.  The outer `Except` is the returned
`Result`; the inner `Option` records whether the merge constructor panicked
(`none`) or produced a collection (`some`). -/
def vecEmbeddable {A E : Type} (e : A → Except E (OneOrMany String))
    (v : List A) : Except E (Option (OneOrMany String)) :=
  match mapCollect e v with
  | Except.error err => Except.error err
  | Except.ok items => Except.ok (OneOrMany.fromMany items)

/-- The error of the first element (in order) whose `embeddable` call fails,
if any: the specification-level description of fail-fast collection. -/
def firstError {A E B : Type} (e : A → Except E B) : List A → Option E
  | [] => none
  | a :: rest =>
    match e a with
    | Except.error err => some err
    | Except.ok _ => firstError e rest

/-- Common shape of every scalar `Embeddable` impl in the source
(`String`, `i8` … `i128`, `f32`, `f64`, `bool`, `char`): each one is
`Ok(OneOrMany::from(self.to_string()))`, i.e. `from_single` applied to the
type's textual representation `ts`. -/
def scalarEmbeddable (A : Type) (ts : A → String) (x : A) :
    Except EmbeddableError (OneOrMany String) :=
  Except.ok (OneOrMany.fromItem (ts x))

/-- Model of `impl Embeddable for String`: `Ok(OneOrMany::from(self.clone()))`. -/
def stringEmbeddable : String → Except EmbeddableError (OneOrMany String) :=
  scalarEmbeddable String id

/-- Model of the signed-integer impls `i8`/`i16`/`i32`/`i64`/`i128`: each is
`Ok(OneOrMany::from(self.to_string()))`; the in-range values of every width
are modelled as `Int` and Rust's decimal `to_string` as `toString`. -/
def intEmbeddable : Int → Except EmbeddableError (OneOrMany String) :=
  scalarEmbeddable Int toString

/-- Model of `impl Embeddable for bool`: `to_string` renders `true`/`false`. -/
def boolEmbeddable : Bool → Except EmbeddableError (OneOrMany String) :=
  scalarEmbeddable Bool toString

/-- Model of `impl Embeddable for char`: `to_string` is the one-character
string. -/
def charEmbeddable : Char → Except EmbeddableError (OneOrMany String) :=
  scalarEmbeddable Char toString

/-- Model of `serde_json::Value` (with numbers restricted to the integers the
claims exercise): null, booleans, numbers, strings, arrays and
string-keyed objects. -/
inductive JsonValue where
  | null : JsonValue
  | bool (b : Bool) : JsonValue
  | num (n : Int) : JsonValue
  | str (s : String) : JsonValue
  | arr (items : List JsonValue) : JsonValue
  | obj (fields : List (String × JsonValue)) : JsonValue

/-- Lowercase hexadecimal digit, as used by `serde_json`'s `\u00XX` escapes. -/
def hexDigit (n : Nat) : Char :=
  if n < 10 then Char.ofNat (48 + n) else Char.ofNat (87 + n)

/-- JSON escaping of one character, following `serde_json`'s formatter: the
two-character escapes for quote, backslash, backspace, tab, newline, form
feed and carriage return, `\u00XX` for the remaining control characters, and
the character itself otherwise. -/
def escapeChar (c : Char) : String :=
  if c = Char.ofNat 34 then String.mk [Char.ofNat 92, Char.ofNat 34]
  else if c = Char.ofNat 92 then String.mk [Char.ofNat 92, Char.ofNat 92]
  else if c.toNat = 8 then String.mk [Char.ofNat 92, Char.ofNat 98]
  else if c.toNat = 9 then String.mk [Char.ofNat 92, Char.ofNat 116]
  else if c.toNat = 10 then String.mk [Char.ofNat 92, Char.ofNat 110]
  else if c.toNat = 12 then String.mk [Char.ofNat 92, Char.ofNat 102]
  else if c.toNat = 13 then String.mk [Char.ofNat 92, Char.ofNat 114]
  else if c.toNat < 32 then
    String.mk [Char.ofNat 92, Char.ofNat 117, Char.ofNat 48, Char.ofNat 48,
      hexDigit (c.toNat / 16), hexDigit (c.toNat % 16)]
  else String.singleton c

/-- JSON rendering of a string: escaped content between double quotes. -/
def escapeString (s : String) : String :=
  String.singleton (Char.ofNat 34)
    ++ String.join (s.toList.map escapeChar)
    ++ String.singleton (Char.ofNat 34)

mutual

/-- Canonical compact serialization of a `JsonValue`, mirroring
`serde_json::to_string`'s compact formatter. -/
def JsonValue.serialize : JsonValue → String
  | JsonValue.null => "null"
  | JsonValue.bool b => if b then "true" else "false"
  | JsonValue.num n => toString n
  | JsonValue.str s => escapeString s
  | JsonValue.arr items => "[" ++ serializeItems items ++ "]"
  | JsonValue.obj fields => "\x7b" ++ serializeFields fields ++ "\x7d"

/-- Comma-separated serialization of array items. -/
def serializeItems : List JsonValue → String
  | [] => ""
  | [v] => JsonValue.serialize v
  | v :: rest => JsonValue.serialize v ++ "," ++ serializeItems rest

/-- Comma-separated serialization of object fields as `"key":value`. -/
def serializeFields : List (String × JsonValue) → String
  | [] => ""
  | [(k, v)] => escapeString k ++ ":" ++ JsonValue.serialize v
  | (k, v) :: rest =>
    escapeString k ++ ":" ++ JsonValue.serialize v ++ "," ++ serializeFields rest

end

/-- Model of `serde_json::to_string(self)` on a `Value`: it has a `Result`
signature, but serializing an in-memory `Value` to a `String` cannot fail
(object keys are strings and the writer is an in-memory buffer), so the
error branch is never taken. -/
def jsonToString (v : JsonValue) : Except String String :=
  Except.ok (JsonValue.serialize v)

/-- Model of `impl Embeddable for serde_json::Value`:
`Ok(OneOrMany::from(serde_json::to_string(self).map_err(EmbeddableError::SerdeError)?))`. -/
def jsonEmbeddable (v : JsonValue) : Except EmbeddableError (OneOrMany String) :=
  match jsonToString v with
  | Except.error e => Except.error (EmbeddableError.SerdeError e)
  | Except.ok s => Except.ok (OneOrMany.fromItem s)

/-! Helper lemmas shared by the claim theorems. -/

/-- `all` of a collection is structurally `first :: rest`, hence never empty. -/
theorem all_ne_nil {T : Type} (o : OneOrMany T) : o.all ≠ [] := by
  simp [OneOrMany.all]

/-- `fromVec` on a non-empty list succeeds and `all` reproduces the input. -/
theorem fromVec_of_ne_nil {T : Type} (l : List T) (h : l ≠ []) :
    ∃ o : OneOrMany T, OneOrMany.fromVec l = some o ∧ o.all = l := by
  cases l with
  | nil => exact absurd rfl h
  | cons x xs => exact ⟨⟨x, xs⟩, rfl, rfl⟩

/-- Merging a non-empty list of collections succeeds and `all` is the
concatenation of the inputs' `all` lists. -/
theorem fromMany_of_ne_nil {T : Type} (cs : List (OneOrMany T)) (h : cs ≠ []) :
    ∃ o : OneOrMany T, OneOrMany.fromMany cs = some o ∧
      o.all = List.flatten (cs.map OneOrMany.all) := by
  have hne : List.flatten (cs.map OneOrMany.all) ≠ [] := by
    cases cs with
    | nil => exact absurd rfl h
    | cons c cs2 => simp [OneOrMany.all]
  exact fromVec_of_ne_nil _ hne

/-- Fail-fast characterisation of `collect::<Result<Vec<_>, _>>`: the
traversal returns `Err err` exactly when `err` is the error of the first
failing element. -/
theorem mapCollect_error_iff {A E B : Type} (e : A → Except E B) (v : List A)
    (err : E) :
    mapCollect e v = Except.error err ↔ firstError e v = some err := by
  induction v with
  | nil => simp [mapCollect, firstError]
  | cons a rest ih =>
    cases ha : e a with
    | error e2 => simp [mapCollect, firstError, ha]
    | ok b =>
      cases hr : mapCollect e rest with
      | error e2 => simp [mapCollect, firstError, ha, hr, ← ih]
      | ok bs => simp [mapCollect, firstError, ha, hr, ← ih]

/-- When every element succeeds, the collected list is the list of the
per-element `Ok` payloads, in order. -/
theorem mapCollect_ok_of_map {A E B : Type} (e : A → Except E B) (v : List A)
    (os : List B) (h : v.map e = os.map Except.ok) :
    mapCollect e v = Except.ok os := by
  induction v generalizing os with
  | nil =>
    cases os with
    | nil => rfl
    | cons o os2 => simp at h
  | cons a rest ih =>
    cases os with
    | nil => simp at h
    | cons o os2 =>
      simp only [List.map_cons, List.cons.injEq] at h
      simp [mapCollect, h.1, ih os2 h.2]

/-! Claim theorems. -/

/-- C2: constructing a `OneOrMany` from a non-empty sequence `s` succeeds and
the result's `all()` equals `s` exactly: the first input element becomes
`first`, the remaining elements become `rest`, order preserved. -/
theorem fromVec_preserves_order (T : Type) (s : List T) (h : s ≠ []) :
    ∃ o : OneOrMany T, OneOrMany.fromVec s = some o ∧
      o.first :: o.rest = s ∧ o.all = s := by
  obtain ⟨o, ho, hall⟩ := fromVec_of_ne_nil s h
  exact ⟨o, ho, hall, hall⟩

/-- Witness for C2 at the concrete non-empty input `[1, 2, 3]`. -/
theorem fromVec_preserves_order_witness :
    ([(1 : Int), 2, 3] ≠ []) ∧
    (∃ o : OneOrMany Int, OneOrMany.fromVec [(1 : Int), 2, 3] = some o ∧
      o.first :: o.rest = [(1 : Int), 2, 3] ∧ o.all = [(1 : Int), 2, 3]) :=
  ⟨by simp, fromVec_preserves_order Int [(1 : Int), 2, 3] (by simp)⟩

/-- C3 (code evaluated at the failing input): the list constructor does not
return a typed `EmptyInputError` on the empty vector — it takes the
`panic!("Cannot create OneOrMany with an empty vector.")` branch, modelled
as `none`, aborting the process instead of returning an error value. -/
theorem fromVec_empty_is_panic :
    OneOrMany.fromVec ([] : List String) = none ∧
    OneOrMany.fromVec ([] : List Int) = none :=
  ⟨rfl, rfl⟩

/-- C4: merge is order-preserving concatenation and associative:
`merge [c1, c2]` succeeds with `all = c1.all ++ c2.all`, and merging
`[c1, c2, c3]` equals merging `[merge [c1, c2], c3]`. -/
theorem merge_concat_assoc (T : Type) (c1 c2 c3 : OneOrMany T) :
    (OneOrMany.fromMany [c1, c2]).map OneOrMany.all =
      some (c1.all ++ c2.all) ∧
    (∃ o12 : OneOrMany T, OneOrMany.fromMany [c1, c2] = some o12 ∧
      OneOrMany.fromMany [o12, c3] = OneOrMany.fromMany [c1, c2, c3]) := by
  refine ⟨?_, ⟨⟨c1.first, c1.rest ++ (c2.all ++ [])⟩, ?_, ?_⟩⟩
  · simp [OneOrMany.fromMany, OneOrMany.fromVec, OneOrMany.all]
  · simp [OneOrMany.fromMany, OneOrMany.fromVec, OneOrMany.all]
  · simp [OneOrMany.fromMany, OneOrMany.fromVec, OneOrMany.all]

/-- C5 (code evaluated at the failing input): merging zero collections
reaches exactly the same empty-vector code path as constructing from an
empty element sequence — but that path is the `panic!` branch (modelled
`none`), not a returned `EmptyInputError`. -/
theorem fromMany_empty_is_panic :
    OneOrMany.fromMany ([] : List (OneOrMany String)) =
      OneOrMany.fromVec ([] : List String) ∧
    OneOrMany.fromMany ([] : List (OneOrMany String)) = none :=
  ⟨rfl, rfl⟩

/-- C6: every operation that yields a collection preserves the non-emptiness
invariant: `all()` of any `OneOrMany` produced by `fromItem`, a successful
`fromVec`, a successful `fromMany`, or a successful `Vec::embeddable` is a
non-empty list. -/
theorem collection_nonempty_invariant (T E : Type) :
    (∀ x : T, (OneOrMany.fromItem x).all ≠ []) ∧
    (∀ (s : List T) (o : OneOrMany T),
      OneOrMany.fromVec s = some o → o.all ≠ []) ∧
    (∀ (cs : List (OneOrMany T)) (o : OneOrMany T),
      OneOrMany.fromMany cs = some o → o.all ≠ []) ∧
    (∀ (e : T → Except E (OneOrMany String)) (v : List T) (o : OneOrMany String),
      vecEmbeddable e v = Except.ok (some o) → o.all ≠ []) ∧
    (∀ o : OneOrMany T, o.all ≠ []) :=
  ⟨fun x => all_ne_nil (OneOrMany.fromItem x), fun _ o _ => all_ne_nil o,
    fun _ o _ => all_ne_nil o, fun _ _ o _ => all_ne_nil o, fun o => all_ne_nil o⟩

/-- Witness for C6: the invariant applied at the concrete successful
construction `fromVec [7] = some (fromItem 7)`. -/
theorem collection_nonempty_invariant_witness :
    OneOrMany.fromVec [(7 : Int)] = some (OneOrMany.fromItem 7) ∧
    (OneOrMany.fromItem (7 : Int)).all ≠ [] :=
  ⟨rfl, (collection_nonempty_invariant Int EmbeddableError).2.1 [(7 : Int)]
    (OneOrMany.fromItem 7) rfl⟩

/-- C7: `from_single` (the `From<T>` impl) is infallible and yields a
one-element collection with `first() == x` and `rest() == []`. -/
theorem fromItem_first_rest (T : Type) (x : T) :
    (OneOrMany.fromItem x).first = x ∧ (OneOrMany.fromItem x).rest = [] ∧
      (OneOrMany.fromItem x).all = [x] :=
  ⟨rfl, rfl, rfl⟩

/-- C8: every scalar `Embeddable` impl (all of them are
`Ok(OneOrMany::from(self.to_string()))`, captured by `scalarEmbeddable`
over the type's textual representation) succeeds with the one-element
collection of that representation; in particular the integer 42 embeds to
`["42"]`, and likewise for concrete bool, char and String inputs. -/
theorem scalar_embeddable_ok :
    (∀ (A : Type) (ts : A → String) (x : A),
      ∃ o : OneOrMany String, scalarEmbeddable A ts x = Except.ok o ∧
        o.all = [ts x] ∧ o.first = ts x ∧ o.rest = []) ∧
    (∃ o : OneOrMany String, intEmbeddable 42 = Except.ok o ∧ o.all = ["42"]) ∧
    (∃ o : OneOrMany String, boolEmbeddable true = Except.ok o ∧ o.all = ["true"]) ∧
    (∃ o : OneOrMany String, charEmbeddable 'a' = Except.ok o ∧ o.all = ["a"]) ∧
    (∃ o : OneOrMany String, stringEmbeddable "hello" = Except.ok o ∧
      o.all = ["hello"]) :=
  ⟨fun _ ts x => ⟨OneOrMany.fromItem (ts x), rfl, rfl, rfl, rfl⟩,
    ⟨OneOrMany.fromItem "42", rfl, rfl⟩,
    ⟨OneOrMany.fromItem "true", rfl, rfl⟩,
    ⟨OneOrMany.fromItem "a", rfl, rfl⟩,
    ⟨OneOrMany.fromItem "hello", rfl, rfl⟩⟩

/-- C9: embedding a JSON value succeeds with the one-element collection of
its canonical serialization, it fails exactly when serialization fails
(never, for an in-memory value), and the concrete object `obj [("a", 1)]`
embeds to `all() = ["{\"a\":1}"]` (braces written as \x7b/\x7d below). -/
theorem json_embeddable_ok :
    (∀ v : JsonValue, ∃ o : OneOrMany String,
      jsonEmbeddable v = Except.ok o ∧ o.all = [JsonValue.serialize v] ∧
        o.first = JsonValue.serialize v ∧ o.rest = []) ∧
    (∀ v : JsonValue,
      (∃ err : EmbeddableError, jsonEmbeddable v = Except.error err) ↔
        (∃ msg : String, jsonToString v = Except.error msg)) ∧
    (∃ o : OneOrMany String,
      jsonEmbeddable (JsonValue.obj [("a", JsonValue.num 1)]) = Except.ok o ∧
        o.all = ["\x7b\"a\":1\x7d"]) := by
  refine ⟨fun v => ⟨OneOrMany.fromItem (JsonValue.serialize v), rfl, rfl, rfl, rfl⟩,
    fun v => ⟨?_, ?_⟩,
    ⟨OneOrMany.fromItem "\x7b\"a\":1\x7d", rfl, rfl⟩⟩
  · rintro ⟨err, h⟩
    simp [jsonEmbeddable, jsonToString] at h
  · rintro ⟨msg, h⟩
    simp [jsonToString] at h

/-- C10: calling `Vec::embeddable` on the empty vector yields neither of the
two contract outcomes: it is not an error, and it is not a collection — the
success path merges zero per-element collections and hits the panic branch
of the list constructor (modelled as the `ok none` outcome). -/
theorem vec_embeddable_empty_total_only_nonempty (A E : Type)
    (e : A → Except E (OneOrMany String)) :
    vecEmbeddable e ([] : List A) = Except.ok none ∧
    (∀ err : E, vecEmbeddable e ([] : List A) ≠ Except.error err) ∧
    (∀ o : OneOrMany String,
      vecEmbeddable e ([] : List A) ≠ Except.ok (some o)) := by
  refine ⟨rfl, ?_, ?_⟩ <;> intro x h <;>
    simp [vecEmbeddable, mapCollect, OneOrMany.fromMany, OneOrMany.fromVec] at h

/-- C1 counterexample: on the empty sequence every element vacuously
succeeds, yet `Vec::embeddable` returns neither an error nor a collection —
its merge step reaches the panic branch, modelled as the `ok none` outcome. -/
theorem vec_embeddable_empty_counterexample :
    vecEmbeddable intEmbeddable ([] : List Int) = Except.ok none :=
  rfl

/-- C1 (amended: for non-empty input sequences): `Vec::embeddable` fails
exactly when some element fails, returning the first failing element's error
verbatim, and when every element succeeds it returns a collection whose
`all()` is the order-preserving concatenation of the elements' fragment
lists. -/
theorem vec_embeddable_fail_fast_and_concat (A E : Type)
    (e : A → Except E (OneOrMany String)) (v : List A) (hne : v ≠ []) :
    (∀ err : E,
      vecEmbeddable e v = Except.error err ↔ firstError e v = some err) ∧
    (∀ os : List (OneOrMany String), v.map e = os.map Except.ok →
      ∃ o : OneOrMany String, vecEmbeddable e v = Except.ok (some o) ∧
        o.all = List.flatten (os.map OneOrMany.all)) := by
  constructor
  · intro err
    constructor
    · intro h
      unfold vecEmbeddable at h
      cases hm : mapCollect e v with
      | error e2 =>
        rw [hm] at h
        injection h with h2
        exact h2 ▸ (mapCollect_error_iff e v e2).mp hm
      | ok items =>
        rw [hm] at h
        exact absurd h (by simp)
    · intro h
      have hm := (mapCollect_error_iff e v err).mpr h
      unfold vecEmbeddable
      rw [hm]
  · intro os hmap
    have hm := mapCollect_ok_of_map e v os hmap
    have hosne : os ≠ [] := by
      intro hc
      subst hc
      simp only [List.map_nil, List.map_eq_nil_iff] at hmap
      exact hne hmap
    obtain ⟨o, ho, hall⟩ := fromMany_of_ne_nil os hosne
    refine ⟨o, ?_, hall⟩
    unfold vecEmbeddable
    rw [hm]
    show Except.ok (OneOrMany.fromMany os) = Except.ok (some o)
    rw [ho]

/-- Witness for the amended C1 at the concrete non-empty input `[1, 2]`. -/
theorem vec_embeddable_fail_fast_and_concat_witness :
    ([(1 : Int), 2] ≠ []) ∧
    ((∀ err : EmbeddableError,
      vecEmbeddable intEmbeddable [(1 : Int), 2] = Except.error err ↔
        firstError intEmbeddable [(1 : Int), 2] = some err) ∧
    (∀ os : List (OneOrMany String),
      List.map intEmbeddable [(1 : Int), 2] = os.map Except.ok →
      ∃ o : OneOrMany String,
        vecEmbeddable intEmbeddable [(1 : Int), 2] = Except.ok (some o) ∧
          o.all = List.flatten (os.map OneOrMany.all))) :=
  ⟨by simp,
    vec_embeddable_fail_fast_and_concat Int EmbeddableError intEmbeddable
      [(1 : Int), 2] (by simp)⟩

end Rig
